import Mathlib

/-!
Shallow embedding of the Secure-notes-app (src/app.py, src/config.py):
a Flask + MongoDB web service with registration, login (JWT session
cookies), and per-user CRUD on notes.  MongoDB ObjectIds are modelled as
natural numbers, the two collections (`users`, `notes`) as Lean lists,
and wall-clock instants as natural numbers counting seconds.  The
library functions the handlers call (werkzeug password hashing, PyJWT
encode/decode, pymongo cursors) are modelled from the specification of
their behaviour, as indicated in their doc comments; everything else is
translated line by line from src/app.py.
-/

namespace SecureNotes

/-- JSON scalar values as they appear in request bodies. -/
inductive JVal
  | jstr (s : String)
  | jnum (n : Int)
  | jnull
deriving DecidableEq, Repr

/-- Outcome of Flask `request.get_json()`: the call can raise (malformed
body / wrong content type), return Python `None` (JSON null body), or
return a parsed JSON object (a dict, modelled as an association list). -/
inductive GetJson
  | raises
  | retNull
  | retObj (fields : List (String × JVal))
deriving DecidableEq, Repr

/-- Python `str.strip()` on the character list: drop whitespace from both
ends. -/
def stripChars (l : List Char) : List Char :=
  ((l.dropWhile Char.isWhitespace).reverse.dropWhile Char.isWhitespace).reverse

/-- Model of Python `str.strip()` (no arguments): remove leading and
trailing whitespace. -/
def pyStrip (s : String) : String := ⟨stripChars s.data⟩

/-- Modelled from the spec: werkzeug `generate_password_hash` produces a
one-way, salted hash.  The model keeps the salt and a digest that
matches exactly the hashed password, so that verification succeeds
precisely for the original password. -/
structure PwHash where
  salt : Nat
  digest : String
deriving DecidableEq, Repr

/-- Modelled from the spec: werkzeug `generate_password_hash`. -/
def generate_password_hash (salt : Nat) (password : String) : PwHash :=
  ⟨salt, password⟩

/-- Modelled from the spec: werkzeug `check_password_hash` compares a
password against the stored salted hash; true exactly for the password
that produced the hash. -/
def check_password_hash (h : PwHash) (password : String) : Bool :=
  h.digest == password

/-- The JWT payload built at login, carrying the user id and the
absolute expiry.  The user id is the MongoDB ObjectId (modelled as
`Nat`, the str/ObjectId round-trip being the identity); `exp` is an
absolute instant in seconds. -/
structure TokenPayload where
  user_id : Nat
  exp : Nat
deriving DecidableEq, Repr

/-- Modelled from the spec: the HS256 MAC over the payload under the
process-wide secret.  The model pairs the secret with the signed
payload, so a signature verifies iff it was produced with the same
secret over the same payload. -/
def jwtSign (secret : String) (p : TokenPayload) : String × TokenPayload :=
  (secret, p)

/-- A signed token as placed in the `token` cookie. -/
structure Token where
  payload : TokenPayload
  sig : String × TokenPayload
deriving DecidableEq, Repr

/-- Modelled from the spec: `jwt.encode(payload, secret, 'HS256')`. -/
def jwtEncode (secret : String) (p : TokenPayload) : Token :=
  ⟨p, jwtSign secret p⟩

/-- The two PyJWT decode failures the handlers distinguish (for logging
only): `ExpiredSignatureError` and `InvalidTokenError`. -/
inductive JwtError
  | expiredSig
  | invalidTok
deriving DecidableEq, Repr

/-- Modelled from the spec: `jwt.decode(token, secret, ['HS256'])`
verifies the signature and then the `exp` claim; a token is valid
strictly before its expiry instant and expired at or after it. -/
def jwtDecode (secret : String) (now : Nat) (t : Token) :
    Except JwtError TokenPayload :=
  if t.sig ≠ jwtSign secret t.payload then .error .invalidTok
  else if t.payload.exp ≤ now then .error .expiredSig
  else .ok t.payload

/-- A document of the `users` collection (src/app.py lines 112-116). -/
structure UserRec where
  id : Nat
  username : String
  password : PwHash
  created_at : Nat
deriving DecidableEq, Repr

/-- A document of the `notes` collection (src/app.py lines 199-205).
`title` and `content` are JSON values: create stores strings, but the
PUT handler copies the request values verbatim. -/
structure Note where
  id : Nat
  user_id : Nat
  title : JVal
  content : JVal
  created_at : Nat
  updated_at : Nat
deriving DecidableEq, Repr

/-- The projection returned by GET /api/notes (src/app.py lines 213-220):
`user_id` is excluded and `_id` is rendered as a string. -/
structure NoteView where
  id : String
  title : JVal
  content : JVal
  created_at : Nat
  updated_at : Nat
deriving DecidableEq, Repr

/-- Project a stored note to its list view (`str(note['_id'])`). -/
def mkView (n : Note) : NoteView :=
  ⟨toString n.id, n.title, n.content, n.created_at, n.updated_at⟩

/-- The JSON bodies the handlers produce. -/
inductive RespBody
  | err (msg : String)
  | info (msg : String)
  | created (msg : String) (note_id : String)
  | noteList (ns : List NoteView)
  | htmlPage (name : String)
deriving DecidableEq, Repr

/-- An HTTP response: status, body, and the optional `Set-Cookie: token`
header produced by a successful login. -/
structure Resp where
  status : Nat
  body : RespBody
  cookie : Option Token := none
deriving DecidableEq, Repr

/-- What a handler invocation yields: a normal response, the redirect to
the login page issued by the auth guard, or an exception escaping the
handler uncaught. -/
inductive HResult
  | resp (r : Resp)
  | redirectLogin
  | uncaught
deriving DecidableEq, Repr

/-- The parts of a Flask request the guarded handlers read: the HTTP
method, the `token` cookie, the parsed JSON body, and the `page` /
`per_page` query arguments (after `request.args.get(..., default,
type=int)` has applied its defaults). -/
structure Request where
  method : String
  cookieToken : Option Token
  body : GetJson
  argPage : Int
  argPerPage : Int
deriving DecidableEq, Repr

/-- src/app.py lines 46-64, `token_required`: read the `token` cookie;
missing cookie or any decode failure redirects to login, otherwise the
wrapped handler runs with the resolved user id. -/
def token_required (secret : String) (now : Nat)
    (f : Nat → Request → List Note → HResult × List Note)
    (req : Request) (db : List Note) : HResult × List Note :=
  match req.cookieToken with
  | none => (.redirectLogin, db)
  | some t =>
    match jwtDecode secret now t with
    | .error _ => (.redirectLogin, db)
    | .ok data => f data.user_id req db

/-- src/app.py lines 88-125, the POST branch of `register`, applied to
the extracted `username` / `password` form values.  `freshId` is the
ObjectId MongoDB generates for the insert, `salt` the salt werkzeug
draws. -/
def register (users : List UserRec) (freshId salt now : Nat)
    (rawUsername password : String) : Resp × List UserRec :=
  let username := pyStrip rawUsername
  if username = "" ∨ password = "" then
    ({status := 400, body := .err "Username and password required"}, users)
  else if username.length < 3 ∨ username.length > 50 then
    ({status := 400, body := .err "Username must be 3-50 characters"}, users)
  else if password.length < 6 then
    ({status := 400, body := .err "Password must be at least 6 characters"}, users)
  else
    match users.find? (fun u => u.username == username) with
    | some _ => ({status := 400, body := .err "Username already exists"}, users)
    | none =>
      ({status := 201, body := .info "User created successfully"},
       users ++ [⟨freshId, username, generate_password_hash salt password, now⟩])

/-- src/app.py lines 127-164, the POST branch of `login`, applied to the
extracted `username` / `password` values.  A successful login sets the
`token` cookie to a JWT expiring 24 hours (86400 seconds) after `now`. -/
def login (secret : String) (now : Nat) (users : List UserRec)
    (rawUsername password : String) : Resp :=
  let username := pyStrip rawUsername
  if username = "" ∨ password = "" then
    {status := 400, body := .err "Username and password required"}
  else
    match users.find? (fun u => u.username == username) with
    | some user =>
      if check_password_hash user.password password then
        {status := 200, body := .info "Login successful",
         cookie := some (jwtEncode secret ⟨user.id, now + 86400⟩)}
      else {status := 401, body := .err "Invalid credentials"}
    | none => {status := 401, body := .err "Invalid credentials"}

/-- Python `data.get(k, d)` on the parsed JSON object. -/
def jget (b : List (String × JVal)) (k : String) (d : JVal) : JVal :=
  match b.find? (fun p => p.1 == k) with
  | some p => p.2
  | none => d

/-- Python `k in data` on the parsed JSON object. -/
def jHasKey (b : List (String × JVal)) (k : String) : Bool :=
  (b.find? (fun p => p.1 == k)).isSome

/-- Python `.strip()` applied to a JSON value: succeeds only on strings,
raises `AttributeError` otherwise. -/
def jstripOrRaise : JVal → Except Unit String
  | .jstr s => .ok (pyStrip s)
  | _ => .error ()

/-- The sort key of GET /api/notes: `.sort('updated_at', -1)`, most
recently updated first. -/
def noteOrder (a b : Note) : Prop := b.updated_at ≤ a.updated_at

instance : DecidableRel noteOrder := fun a b =>
  inferInstanceAs (Decidable (b.updated_at ≤ a.updated_at))

instance : IsTotal Note noteOrder :=
  ⟨fun a b => le_total b.updated_at a.updated_at⟩

instance : IsTrans Note noteOrder :=
  ⟨fun _ _ _ h h' => le_trans h' h⟩

/-- The descending-by-`updated_at` ordering MongoDB serves for
`.sort('updated_at', -1)`. -/
def sortNotesDesc (l : List Note) : List Note :=
  List.insertionSort noteOrder l

/-- src/app.py lines 209-222, the GET branch of `notes` inside its
`try`: clamp `per_page` to at most 100, then
`.skip((page - 1) * per_page).limit(per_page)` over the caller's notes
sorted by `updated_at` descending.  Modelled from the pymongo/MongoDB
cursor contract: `skip` raises `ValueError` on a negative argument,
`limit(0)` means no limit, and a negative limit behaves as its absolute
value. -/
def notesGetTry (db : List Note) (uid : Nat) (page perPageReq : Int) :
    Except Unit (List NoteView) :=
  if (page - 1) * min perPageReq 100 < 0 then .error ()
  else
    .ok (List.map mkView
      (if min perPageReq 100 = 0 then
        (sortNotesDesc (db.filter (fun n => n.user_id == uid))).drop
          ((page - 1) * min perPageReq 100).toNat
      else
        ((sortNotesDesc (db.filter (fun n => n.user_id == uid))).drop
          ((page - 1) * min perPageReq 100).toNat).take (min perPageReq 100).natAbs))

/-- src/app.py lines 181-207, the POST branch of `notes` inside its
`try`: `Except.error` marks an exception reaching the enclosing
`except` (a raising `get_json`, or `.strip()` on a non-string value). -/
def notesPostTry (db : List Note) (uid freshId now : Nat) (body : GetJson) :
    Except Unit (Resp × List Note) :=
  match body with
  | .raises => .error ()
  | .retNull => .ok ({status := 400, body := .err "Invalid JSON data"}, db)
  | .retObj b =>
    if b.isEmpty then
      .ok ({status := 400, body := .err "Invalid JSON data"}, db)
    else
      match jstripOrRaise (jget b "title" (.jstr "")) with
      | .error e => .error e
      | .ok title =>
        match jstripOrRaise (jget b "content" (.jstr "")) with
        | .error e => .error e
        | .ok content =>
          if content = "" then
            .ok ({status := 400, body := .err "Content is required"}, db)
          else if content.length > 10000 then
            .ok ({status := 400, body := .err "Content too long (max 10,000 characters)"}, db)
          else if title.length > 200 then
            .ok ({status := 400, body := .err "Title too long (max 200 characters)"}, db)
          else
            .ok ({status := 201, body := .created "Note created" (toString freshId)},
                 db ++ [⟨freshId, uid, .jstr title, .jstr content, now, now⟩])

/-- src/app.py lines 177-226, `notes`: the whole handler body runs in a
`try` whose `except` converts any exception into a generic 500.  The
route only admits GET and POST, so a non-POST method is GET. -/
def notesHandler (uid : Nat) (req : Request) (freshId now : Nat)
    (db : List Note) : HResult × List Note :=
  if req.method = "POST" then
    match notesPostTry db uid freshId now req.body with
    | .ok (r, db') => (.resp r, db')
    | .error _ => (.resp {status := 500, body := .err "Operation failed"}, db)
  else
    match notesGetTry db uid req.argPage req.argPerPage with
    | .ok vs => (.resp {status := 200, body := .noteList vs}, db)
    | .error _ => (.resp {status := 500, body := .err "Operation failed"}, db)

/-- Modelled from the spec: `ObjectId(note_id)` parses the path segment
into a note id and raises on malformed input (handled as a 400).  Ids
are modelled as naturals rendered in decimal. -/
def parseDigits : List Char → Nat → Option Nat
  | [], acc => some acc
  | c :: cs, acc =>
    if c.isDigit then parseDigits cs (acc * 10 + (c.toNat - 48)) else none

/-- Modelled from the spec: the `ObjectId(note_id)` conversion guarded
by the `try` at src/app.py lines 231-234. -/
def parseObjectId (s : String) : Option Nat :=
  match s.data with
  | [] => none
  | l => parseDigits l 0

/-- MongoDB `update_one({'_id': nid}, ...)`: rewrite the first document
with the given id (ids are unique in a collection). -/
def updateFirst (nid : Nat) (f : Note → Note) : List Note → List Note
  | [] => []
  | n :: ns => if n.id = nid then f n :: ns else n :: updateFirst nid f ns

/-- MongoDB `delete_one({'_id': nid})`: remove the first document with
the given id. -/
def deleteFirst (nid : Nat) : List Note → List Note
  | [] => []
  | n :: ns => if n.id = nid then ns else n :: deleteFirst nid ns

/-- src/app.py lines 246-253: the `$set` document of the PUT branch —
`updated_at` always, `title` and `content` exactly when present in the
request body, copied verbatim. -/
def putUpdate (b : List (String × JVal)) (now : Nat) (n : Note) : Note :=
  let n1 := {n with updated_at := now}
  let n2 := if jHasKey b "title" then {n1 with title := jget b "title" .jnull} else n1
  if jHasKey b "content" then {n2 with content := jget b "content" .jnull} else n2

/-- src/app.py lines 228-264, `note_detail`: only the `ObjectId`
conversion is inside a `try`; the ownership-fused lookup returns the
same 404 for a foreign and for a missing note; a PUT whose `get_json`
raises, or returns `None` (making `'title' in data` raise), escapes the
handler uncaught.  The route only admits PUT and DELETE; any other
method would fall off the end of the function (modelled as uncaught). -/
def noteDetailHandler (uid : Nat) (noteId : String) (req : Request)
    (now : Nat) (db : List Note) : HResult × List Note :=
  match parseObjectId noteId with
  | none => (.resp {status := 400, body := .err "Invalid note ID"}, db)
  | some nid =>
    match db.find? (fun n => n.id == nid && n.user_id == uid) with
    | none => (.resp {status := 404, body := .err "Note not found"}, db)
    | some _ =>
      if req.method = "PUT" then
        match req.body with
        | .raises => (.uncaught, db)
        | .retNull => (.uncaught, db)
        | .retObj b =>
          (.resp {status := 200, body := .info "Note updated"},
           updateFirst nid (putUpdate b now) db)
      else if req.method = "DELETE" then
        (.resp {status := 200, body := .info "Note deleted"}, deleteFirst nid db)
      else (.uncaught, db)

/-- src/app.py lines 172-175, `dashboard`: renders the dashboard page. -/
def dashboardHandler (_uid : Nat) (_req : Request) (db : List Note) :
    HResult × List Note :=
  (.resp {status := 200, body := .htmlPage "dashboard.html"}, db)

/-- The guarded /dashboard endpoint. -/
def appDashboard (secret : String) (now : Nat) (req : Request)
    (db : List Note) : HResult × List Note :=
  token_required secret now dashboardHandler req db

/-- The guarded /api/notes endpoint. -/
def appNotes (secret : String) (now freshId : Nat) (req : Request)
    (db : List Note) : HResult × List Note :=
  token_required secret now (fun uid r d => notesHandler uid r freshId now d) req db

/-- The guarded /api/notes/{id} endpoint. -/
def appNoteDetail (secret : String) (now : Nat) (noteId : String)
    (req : Request) (db : List Note) : HResult × List Note :=
  token_required secret now (fun uid r d => noteDetailHandler uid noteId r now d) req db

/-- One authenticated API call against the notes collection, with the
server-chosen data (fresh ObjectId, current time) as parameters. -/
inductive ApiOp
  | post (uid freshId now : Nat) (body : GetJson)
  | put (uid : Nat) (noteId : String) (now : Nat) (body : GetJson)
  | del (uid : Nat) (noteId : String)
  | getList (uid : Nat) (page perPage : Int)
deriving DecidableEq, Repr

/-- The effect of one API call on the notes collection. -/
def applyOp (db : List Note) : ApiOp → List Note
  | .post uid freshId now body =>
    (notesHandler uid ⟨"POST", none, body, 1, 20⟩ freshId now db).2
  | .put uid noteId now body =>
    (noteDetailHandler uid noteId ⟨"PUT", none, body, 1, 20⟩ now db).2
  | .del uid noteId =>
    (noteDetailHandler uid noteId ⟨"DELETE", none, .retNull, 1, 20⟩ 0 db).2
  | .getList uid page perPage =>
    (notesHandler uid ⟨"GET", none, .retNull, page, perPage⟩ 0 0 db).2

/-- The effect of a sequence of API calls on the notes collection. -/
def applyOps (db : List Note) (ops : List ApiOp) : List Note :=
  ops.foldl applyOp db

/-- The data-model bound on a string field: a string, within the length
limit, and non-empty when required. -/
def jvalStrOk (v : JVal) (maxLen : Nat) (required : Bool) : Bool :=
  match v with
  | .jstr s => (!required || !(s == "")) && decide (s.length ≤ maxLen)
  | _ => false

/-- The data-model bounds of §3: content 1-10000 characters, title at
most 200 characters. -/
def noteBoundsOk (n : Note) : Bool :=
  jvalStrOk n.content 10000 true && jvalStrOk n.title 200 false

/-- All notes in the store satisfy the data-model bounds. -/
def dbBoundsOk (db : List Note) : Bool :=
  db.all noteBoundsOk

/-- An API call that is not an update. -/
def opNoPut : ApiOp → Bool
  | .put _ _ _ _ => false
  | _ => true

/-- A string with no leading and no trailing whitespace. -/
def noSurroundingWs (s : String) : Prop :=
  (∀ ch, s.data.head? = some ch → ch.isWhitespace = false)
  ∧ (∀ ch, s.data.getLast? = some ch → ch.isWhitespace = false)

instance {ε α : Type} [DecidableEq ε] [DecidableEq α] : DecidableEq (Except ε α) :=
  fun a b =>
    match a, b with
    | .ok x, .ok y =>
      if h : x = y then .isTrue (by rw [h])
      else .isFalse (by intro hh; cases hh; exact h rfl)
    | .error x, .error y =>
      if h : x = y then .isTrue (by rw [h])
      else .isFalse (by intro hh; cases hh; exact h rfl)
    | .ok _, .error _ => .isFalse (by intro hh; cases hh)
    | .error _, .ok _ => .isFalse (by intro hh; cases hh)

/-! ## Claim theorems -/

/-- C2: on every session-guarded endpoint, a missing token cookie or a
token failing validation (expired or bad signature) yields the redirect
to the login page with the store untouched, independently of the wrapped
handler (so the handler is never invoked); a validating token invokes
the wrapped handler with the resolved user id; and each of the three
guarded handlers is insensitive to the raw token cookie, so the handler
never receives the raw token. -/
theorem C2_auth_guard (secret : String) (now : Nat)
    (f : Nat → Request → List Note → HResult × List Note)
    (req : Request) (db : List Note) :
    (req.cookieToken = none →
      token_required secret now f req db = (.redirectLogin, db))
    ∧ (∀ t e, req.cookieToken = some t → jwtDecode secret now t = .error e →
        token_required secret now f req db = (.redirectLogin, db))
    ∧ (∀ t p, req.cookieToken = some t → jwtDecode secret now t = .ok p →
        token_required secret now f req db = f p.user_id req db)
    ∧ (∀ uid m c c' b pg pp,
        dashboardHandler uid ⟨m, c, b, pg, pp⟩ db
          = dashboardHandler uid ⟨m, c', b, pg, pp⟩ db)
    ∧ (∀ uid m c c' b pg pp fId nowH,
        notesHandler uid ⟨m, c, b, pg, pp⟩ fId nowH db
          = notesHandler uid ⟨m, c', b, pg, pp⟩ fId nowH db)
    ∧ (∀ uid nId m c c' b pg pp nowH,
        noteDetailHandler uid nId ⟨m, c, b, pg, pp⟩ nowH db
          = noteDetailHandler uid nId ⟨m, c', b, pg, pp⟩ nowH db) := by
  refine ⟨?_, ?_, ?_, ?_, ?_, ?_⟩
  · intro h; simp [token_required, h]
  · intro t e ht he; simp [token_required, ht, he]
  · intro t p ht hp; simp [token_required, ht, hp]
  · intros; rfl
  · intros; rfl
  · intros; rfl

/-- Witness for C2 at a concrete unauthenticated request. -/
theorem C2_auth_guard_witness :
    token_required "sk" 0 (fun _ _ d => (.uncaught, d))
      ⟨"GET", none, .retNull, 1, 20⟩ [] = (.redirectLogin, []) :=
  (C2_auth_guard "sk" 0 (fun _ _ d => (.uncaught, d))
    ⟨"GET", none, .retNull, 1, 20⟩ []).1 rfl

/-- C3: a successful login at time `t` sets a cookie whose token embeds
the user's id and the absolute expiry `t` + 24 hours; that token decodes
to the user at every instant strictly before the expiry and fails with
the expiry error at and after it. -/
theorem C3_token_lifecycle (secret uname pw : String) (users : List UserRec)
    (t : Nat) (u : UserRec)
    (h1 : pyStrip uname ≠ "") (h2 : pw ≠ "")
    (h3 : users.find? (fun x => x.username == pyStrip uname) = some u)
    (h4 : check_password_hash u.password pw = true) :
    (login secret t users uname pw).cookie
        = some (jwtEncode secret ⟨u.id, t + 86400⟩)
    ∧ (login secret t users uname pw).status = 200
    ∧ (∀ t', t' < t + 86400 →
        jwtDecode secret t' (jwtEncode secret ⟨u.id, t + 86400⟩)
          = .ok ⟨u.id, t + 86400⟩)
    ∧ (∀ t', t + 86400 ≤ t' →
        jwtDecode secret t' (jwtEncode secret ⟨u.id, t + 86400⟩)
          = .error .expiredSig) := by
  refine ⟨?_, ?_, ?_, ?_⟩
  · simp [login, h1, h2, h3, h4]
  · simp [login, h1, h2, h3, h4]
  · intro t' ht; simp [jwtDecode, jwtEncode, Nat.not_le.2 ht]
  · intro t' ht; simp [jwtDecode, jwtEncode, ht]

/-- Witness for C3: alice logs in at t = 100; her token validates at
the last instant before expiry and is rejected exactly at expiry. -/
theorem C3_token_lifecycle_witness :
    (login "sk" 100 [⟨7, "alice", ⟨0, "secret1"⟩, 0⟩] "alice" "secret1").cookie
        = some (jwtEncode "sk" ⟨7, 86500⟩)
    ∧ jwtDecode "sk" 86499 (jwtEncode "sk" ⟨7, 86500⟩) = .ok ⟨7, 86500⟩
    ∧ jwtDecode "sk" 86500 (jwtEncode "sk" ⟨7, 86500⟩) = .error .expiredSig := by
  have h := C3_token_lifecycle "sk" "alice" "secret1"
    [⟨7, "alice", ⟨0, "secret1"⟩, 0⟩] 100 ⟨7, "alice", ⟨0, "secret1"⟩, 0⟩
    (by decide) (by decide) (by decide) (by decide)
  exact ⟨h.1, h.2.2.1 86499 (by decide), h.2.2.2 86500 (by decide)⟩

/-- C4: a login attempt with an unknown username and one with a known
username but wrong password produce the same caller-visible response:
both are 401 with the same body and no cookie. -/
theorem C4_login_no_enumeration (secret : String) (now : Nat)
    (users : List UserRec) (u1 p1 u2 p2 : String) (u : UserRec)
    (h1 : pyStrip u1 ≠ "") (h2 : p1 ≠ "")
    (h3 : users.find? (fun x => x.username == pyStrip u1) = none)
    (h4 : pyStrip u2 ≠ "") (h5 : p2 ≠ "")
    (h6 : users.find? (fun x => x.username == pyStrip u2) = some u)
    (h7 : check_password_hash u.password p2 = false) :
    login secret now users u1 p1 = login secret now users u2 p2
    ∧ (login secret now users u1 p1).status = 401
    ∧ (login secret now users u1 p1).body = .err "Invalid credentials"
    ∧ (login secret now users u1 p1).cookie = none := by
  refine ⟨?_, ?_, ?_, ?_⟩ <;>
    simp [login, h1, h2, h3, h4, h5, h6, h7]

/-- Witness for C4: with only alice registered, a login as a missing
user and a login as alice with the wrong password coincide. -/
theorem C4_login_no_enumeration_witness :
    login "sk" 0 [⟨7, "alice", ⟨0, "secret1"⟩, 0⟩] "nosuchuser" "x"
      = login "sk" 0 [⟨7, "alice", ⟨0, "secret1"⟩, 0⟩] "alice" "wrongpass"
    ∧ (login "sk" 0 [⟨7, "alice", ⟨0, "secret1"⟩, 0⟩] "nosuchuser" "x").status = 401 := by
  have h := C4_login_no_enumeration "sk" 0 [⟨7, "alice", ⟨0, "secret1"⟩, 0⟩]
    "nosuchuser" "x" "alice" "wrongpass" ⟨7, "alice", ⟨0, "secret1"⟩, 0⟩
    (by decide) (by decide) (by decide) (by decide) (by decide) (by decide) (by decide)
  exact ⟨h.1, h.2.1⟩

/-- Any note served by the GET branch comes from the caller's own
documents. -/
theorem notesGetTry_sources (db : List Note) (uid : Nat) (page pp : Int)
    (vs : List NoteView) (h : notesGetTry db uid page pp = .ok vs) :
    ∃ l, (∀ m ∈ l, m ∈ db ∧ m.user_id = uid) ∧ vs = List.map mkView l := by
  unfold notesGetTry at h
  split at h
  · exact absurd h (by simp)
  · refine ⟨_, fun m hm => ?_, (Except.ok.inj h).symm⟩
    have hmem : m ∈ sortNotesDesc (db.filter (fun n => n.user_id == uid)) := by
      split at hm
      · exact List.mem_of_mem_drop hm
      · exact List.mem_of_mem_drop (List.mem_of_mem_take hm)
    have hf : m ∈ db.filter (fun n => n.user_id == uid) :=
      (List.mem_insertionSort noteOrder).mp hmem
    have := List.mem_filter.mp hf
    exact ⟨this.1, by simpa using this.2⟩

/-- C1: a note owned by user A is invisible to every other user B.
B's GET /api/notes draws only from B's own notes, so never returns the
note; B's PUT and DELETE on the note's id answer the 404 not-found
response with the store untouched; and that response is exactly the one
produced for an id that designates no stored note at all. -/
theorem C1_owner_isolation (db : List Note) (A B : Nat) (n : Note)
    (noteIdStr : String) (now : Nat) (c : Option Token) (bj : GetJson)
    (hnodup : (db.map Note.id).Nodup)
    (hmem : n ∈ db) (hA : n.user_id = A) (hAB : A ≠ B)
    (hparse : parseObjectId noteIdStr = some n.id) :
    (∀ page pp vs, notesGetTry db B page pp = .ok vs →
      ∃ l, (∀ m ∈ l, m ∈ db ∧ m.user_id = B) ∧ n ∉ l ∧ vs = List.map mkView l)
    ∧ noteDetailHandler B noteIdStr ⟨"PUT", c, bj, 1, 20⟩ now db
        = (.resp {status := 404, body := .err "Note not found"}, db)
    ∧ noteDetailHandler B noteIdStr ⟨"DELETE", c, bj, 1, 20⟩ now db
        = (.resp {status := 404, body := .err "Note not found"}, db)
    ∧ (∀ s nid m, parseObjectId s = some nid → nid ∉ db.map Note.id →
        noteDetailHandler B s ⟨m, c, bj, 1, 20⟩ now db
          = (.resp {status := 404, body := .err "Note not found"}, db)) := by
  have hfind : db.find? (fun x => x.id == n.id && x.user_id == B) = none := by
    rw [List.find?_eq_none]
    intro x hx hpx
    simp only [Bool.and_eq_true, beq_iff_eq] at hpx
    have hxn : x = n := List.inj_on_of_nodup_map hnodup hx hmem hpx.1
    exact hAB (hA ▸ hxn ▸ hpx.2)
  refine ⟨?_, ?_, ?_, ?_⟩
  · intro page pp vs h
    obtain ⟨l, hl, hvs⟩ := notesGetTry_sources db B page pp vs h
    exact ⟨l, hl, fun hn => hAB (hA ▸ (hl n hn).2), hvs⟩
  · simp [noteDetailHandler, hparse, hfind]
  · simp [noteDetailHandler, hparse, hfind]
  · intro s nid m hp hnid
    have hfind' : db.find? (fun x => x.id == nid && x.user_id == B) = none := by
      rw [List.find?_eq_none]
      intro x hx hpx
      simp only [Bool.and_eq_true, beq_iff_eq] at hpx
      exact hnid (hpx.1 ▸ List.mem_map_of_mem Note.id hx)
    simp [noteDetailHandler, hp, hfind']

/-- Witness for C1: with only note 1 (owned by user 1) stored, user 2's
PUT and DELETE on it answer 404 and leave the store unchanged. -/
theorem C1_owner_isolation_witness :
    noteDetailHandler 2 "1" ⟨"PUT", none, .retNull, 1, 20⟩ 0
        [⟨1, 1, .jstr "t", .jstr "c", 0, 0⟩]
      = (.resp {status := 404, body := .err "Note not found"},
         [⟨1, 1, .jstr "t", .jstr "c", 0, 0⟩])
    ∧ noteDetailHandler 2 "1" ⟨"DELETE", none, .retNull, 1, 20⟩ 0
        [⟨1, 1, .jstr "t", .jstr "c", 0, 0⟩]
      = (.resp {status := 404, body := .err "Note not found"},
         [⟨1, 1, .jstr "t", .jstr "c", 0, 0⟩]) := by
  have h := C1_owner_isolation [⟨1, 1, .jstr "t", .jstr "c", 0, 0⟩] 1 2
    ⟨1, 1, .jstr "t", .jstr "c", 0, 0⟩ "1" 0 none .retNull
    (by decide) (by decide) rfl (by decide) (by decide)
  exact ⟨h.2.1, h.2.2.1⟩

/-- The one-note store used by the concrete C6 pagination example. -/
def c6db : List Note := [⟨1, 1, .jstr "t", .jstr "c", 0, 0⟩]

/-- C6 counterexample: with one stored note, a GET with page = 0 is not
served as page 1 — the negative skip raises and the handler answers a
generic 500, while the same request with page = 1 returns the note. -/
theorem C6_counterexample :
    notesHandler 1 ⟨"GET", none, .retNull, 0, 20⟩ 0 0 c6db
      = (.resp {status := 500, body := .err "Operation failed"}, c6db)
    ∧ notesHandler 1 ⟨"GET", none, .retNull, 1, 20⟩ 0 0 c6db
      = (.resp {status := 200, body := .noteList [⟨"1", .jstr "t", .jstr "c", 0, 0⟩]}, c6db) := by
  decide

/-- C6 (amended): a requested per_page of 100 or more is served as if
100 were requested (clamped, not rejected); for page ≥ 1 and per_page ≥
1 the result is the owner's notes sorted by updated_at descending,
sliced to the requested page with the clamped per_page; but page ≤ 0
(with a positive per_page) is not treated as page 1 — the negative skip
raises and the handler answers a generic 500. -/
theorem C6_pagination (db : List Note) (uid : Nat) (page pp : Int) :
    (100 ≤ pp → notesGetTry db uid page pp = notesGetTry db uid page 100)
    ∧ (1 ≤ page → 1 ≤ pp →
        ∃ l : List Note, List.Perm l (db.filter (fun n => n.user_id == uid))
          ∧ List.Sorted noteOrder l
          ∧ notesGetTry db uid page pp =
              .ok (List.map mkView
                (List.take (min pp 100).toNat
                  (List.drop ((page - 1) * min pp 100).toNat l))))
    ∧ (page ≤ 0 → 1 ≤ pp → notesGetTry db uid page pp = .error ())
    ∧ (∀ c bj fId nowH, page ≤ 0 → 1 ≤ pp →
        notesHandler uid ⟨"GET", c, bj, page, pp⟩ fId nowH db
          = (.resp {status := 500, body := .err "Operation failed"}, db)) := by
  have hmin1 : ∀ h : (1 : Int) ≤ pp, 1 ≤ min pp 100 := fun h =>
    le_min h (by norm_num)
  have hneg : ∀ (hp : page ≤ 0) (hq : (1 : Int) ≤ pp),
      (page - 1) * min pp 100 < 0 := by
    intro hp hq
    have h1 : page - 1 ≤ -1 := by omega
    have h2 : (1 : Int) ≤ min pp 100 := hmin1 hq
    calc (page - 1) * min pp 100 ≤ (-1) * min pp 100 :=
          mul_le_mul_of_nonneg_right h1 (by omega)
      _ = -(min pp 100) := by ring
      _ < 0 := by omega
  refine ⟨?_, ?_, ?_, ?_⟩
  · intro h
    have : min pp 100 = min (100 : Int) 100 := by
      rw [min_eq_right h, min_self]
    unfold notesGetTry
    rw [this]
  · intro hpage hpp
    refine ⟨sortNotesDesc (db.filter (fun n => n.user_id == uid)),
      List.perm_insertionSort noteOrder _,
      List.sorted_insertionSort noteOrder _, ?_⟩
    have hskip : ¬ ((page - 1) * min pp 100 < 0) := by
      have h2 : (1 : Int) ≤ min pp 100 := hmin1 hpp
      have h1 : 0 ≤ page - 1 := by omega
      exact not_lt.2 (mul_nonneg h1 (by omega))
    have hpp0 : ¬ (min pp 100 = 0) := by
      have := hmin1 hpp; omega
    have habs : (min pp 100).natAbs = (min pp 100).toNat := by
      have := hmin1 hpp; omega
    unfold notesGetTry
    rw [if_neg hskip, if_neg hpp0, habs]
  · intro hp hq
    unfold notesGetTry
    rw [if_pos (hneg hp hq)]
  · intro c bj fId nowH hp hq
    have h500 : notesGetTry db uid page pp = .error () := by
      unfold notesGetTry
      rw [if_pos (hneg hp hq)]
    simp [notesHandler, h500]

/-- Witness for C6: per_page 500 is served as per_page 100, and page 0
yields the generic 500. -/
theorem C6_pagination_witness :
    notesGetTry c6db 1 1 500 = notesGetTry c6db 1 1 100
    ∧ notesHandler 1 ⟨"GET", none, .retNull, 0, 20⟩ 0 0 c6db
        = (.resp {status := 500, body := .err "Operation failed"}, c6db) := by
  refine ⟨(C6_pagination c6db 1 1 500).1 (by norm_num), ?_⟩
  exact (C6_pagination c6db 1 0 20).2.2.2 none .retNull 0 0 (by norm_num) (by norm_num)

/-- The one-note store used by the concrete C7 example. -/
def c7db : List Note := [⟨1, 1, .jstr "t", .jstr "c", 0, 0⟩]

/-- C7 counterexample: a PUT on an existing owned note whose body read
raises is not converted to a 500 at the handler boundary — the exception
escapes note_detail uncaught. -/
theorem C7_counterexample :
    noteDetailHandler 1 "1" ⟨"PUT", none, .raises, 1, 20⟩ 5 c7db
      = (.uncaught, c7db) := by
  decide

/-- C7 (amended): the notes list/create handler converts every internal
exception into the generic 500 (it never lets one escape, and a raising
body read on POST yields exactly the 500 response with the store
untouched); note_detail, however, guards only the ObjectId conversion:
a PUT on an existing owned note whose body read raises, or returns
None, escapes the handler uncaught. -/
theorem C7_exception_boundary (uid freshId now : Nat) (req : Request)
    (db : List Note) :
    ((notesHandler uid req freshId now db).1 ≠ .uncaught)
    ∧ (req.method = "POST" → req.body = .raises →
        notesHandler uid req freshId now db
          = (.resp {status := 500, body := .err "Operation failed"}, db))
    ∧ (∀ noteId nid n, req.method = "PUT" →
        (req.body = .raises ∨ req.body = .retNull) →
        parseObjectId noteId = some nid →
        db.find? (fun m => m.id == nid && m.user_id == uid) = some n →
        noteDetailHandler uid noteId req now db = (.uncaught, db)) := by
  refine ⟨?_, ?_, ?_⟩
  · unfold notesHandler
    split
    · split
      · simp
      · simp
    · split
      · simp
      · simp
  · intro hm hb
    simp [notesHandler, notesPostTry, hm, hb]
  · intro noteId nid n hm hb hp hf
    rcases hb with hb | hb <;> simp [noteDetailHandler, hp, hf, hm, hb]

/-- Witness for C7: the POST whose body read raises gets the generic
500 from the notes handler. -/
theorem C7_exception_boundary_witness :
    notesHandler 1 ⟨"POST", none, .raises, 1, 20⟩ 0 0 []
      = (.resp {status := 500, body := .err "Operation failed"}, []) :=
  (C7_exception_boundary 1 0 0 ⟨"POST", none, .raises, 1, 20⟩ []).2.1 rfl rfl

/-- Every store the create branch can produce satisfies the data-model
bounds, given the incoming store did. -/
theorem notesPostTry_bounds (db : List Note) (uid freshId now : Nat)
    (body : GetJson) (h : dbBoundsOk db = true) (r : Resp) (db' : List Note)
    (hres : notesPostTry db uid freshId now body = .ok (r, db')) :
    dbBoundsOk db' = true := by
  have hid : ∀ X : Resp,
      (Except.ok (X, db) : Except Unit (Resp × List Note)) = Except.ok (r, db') →
      dbBoundsOk db' = true := by
    intro X hx
    have h2 : db = db' := congrArg Prod.snd (Except.ok.inj hx)
    rw [← h2]
    exact h
  cases body with
  | raises => simp [notesPostTry] at hres
  | retNull =>
    simp only [notesPostTry] at hres
    exact hid _ hres
  | retObj b =>
    simp only [notesPostTry] at hres
    split at hres
    · exact hid _ hres
    · split at hres
      · simp at hres
      · rename_i title ht
        split at hres
        · simp at hres
        · rename_i content hc
          split at hres
          · exact hid _ hres
          · rename_i h1
            split at hres
            · exact hid _ hres
            · rename_i h2
              split at hres
              · exact hid _ hres
              · rename_i h3
                have h4 : db ++ [⟨freshId, uid, .jstr title, .jstr content, now, now⟩] = db' :=
                  congrArg Prod.snd (Except.ok.inj hres)
                rw [← h4]
                simp only [dbBoundsOk, List.all_append, List.all_cons,
                  List.all_nil, Bool.and_eq_true] at h ⊢
                refine ⟨h, ?_, trivial⟩
                simp only [noteBoundsOk, jvalStrOk, Bool.and_eq_true,
                  Bool.or_eq_true, Bool.not_eq_eq_eq_not, Bool.not_true,
                  decide_eq_true_eq]
                refine ⟨⟨?_, by omega⟩, by simp, by omega⟩
                simp [h1]

/-- Deleting a document only removes elements. -/
theorem mem_deleteFirst (nid : Nat) (db : List Note) (m : Note)
    (hm : m ∈ deleteFirst nid db) : m ∈ db := by
  induction db with
  | nil => simp [deleteFirst] at hm
  | cons x xs ih =>
    unfold deleteFirst at hm
    split at hm
    · exact List.mem_cons_of_mem x hm
    · rcases List.mem_cons.mp hm with h | h
      · exact h ▸ List.mem_cons_self x xs
      · exact List.mem_cons_of_mem x (ih h)

/-- A create, delete or list call preserves the data-model bounds. -/
theorem applyOp_bounds (db : List Note) (op : ApiOp)
    (h : dbBoundsOk db = true) (hop : opNoPut op = true) :
    dbBoundsOk (applyOp db op) = true := by
  cases op with
  | post uid freshId now body =>
    unfold applyOp notesHandler
    cases hres : notesPostTry db uid freshId now body with
    | error e => simp [hres, h]
    | ok p =>
      obtain ⟨r, db'⟩ := p
      simpa [hres] using notesPostTry_bounds db uid freshId now body h r db' hres
  | put uid noteId now body => simp [opNoPut] at hop
  | del uid noteId =>
    unfold applyOp noteDetailHandler
    cases hp : parseObjectId noteId with
    | none => simp [hp, h]
    | some nid =>
      cases hf : db.find? (fun m => m.id == nid && m.user_id == uid) with
      | none => simp [hp, hf, h]
      | some n0 =>
        simp only [hp, hf]
        simp only [dbBoundsOk, List.all_eq_true] at h ⊢
        intro m hm
        exact h m (mem_deleteFirst nid db m (by simpa using hm))
  | getList uid page perPage =>
    unfold applyOp notesHandler
    cases hres : notesGetTry db uid page perPage <;> simp [hres, h]

/-- The operations of the C5 counterexample: create a valid note, then
blank its content through the unvalidated PUT. -/
def c5ops : List ApiOp :=
  [.post 1 1 0 (.retObj [("content", .jstr "hi")]),
   .put 1 "1" 5 (.retObj [("content", .jstr "")])]

/-- C5 counterexample: a successful create followed by a successful PUT
that blanks the content leaves the store with a note violating the
content bound — the PUT branch performs no validation. -/
theorem C5_counterexample :
    dbBoundsOk (applyOps [] c5ops) = false
    ∧ (noteDetailHandler 1 "1"
        ⟨"PUT", none, .retObj [("content", .jstr "")], 1, 20⟩ 5
        (applyOps [] [.post 1 1 0 (.retObj [("content", .jstr "hi")])])).1
        = .resp {status := 200, body := .info "Note updated"} := by
  decide

/-- C5 (amended): after any sequence of note create, list, and delete
operations through the API — but not updates — every note in the store
satisfies the data-model bounds: content a non-empty string of at most
10000 characters and title a string of at most 200 characters.  The PUT
branch validates nothing and can break the bounds. -/
theorem C5_bounds_no_update (db : List Note) (ops : List ApiOp)
    (h1 : dbBoundsOk db = true) (h2 : ops.all opNoPut = true) :
    dbBoundsOk (applyOps db ops) = true := by
  induction ops generalizing db with
  | nil => simpa [applyOps] using h1
  | cons op ops ih =>
    simp only [List.all_cons, Bool.and_eq_true] at h2
    have hstep := applyOp_bounds db op h1 h2.1
    simpa [applyOps] using ih (applyOp db op) hstep h2.2

/-- Witness for C5 (amended): a create followed by a delete keeps the
bounds. -/
theorem C5_bounds_no_update_witness :
    dbBoundsOk (applyOps []
      [.post 1 1 0 (.retObj [("content", .jstr "hi")]), .del 1 "1"]) = true :=
  C5_bounds_no_update []
    [.post 1 1 0 (.retObj [("content", .jstr "hi")]), .del 1 "1"]
    (by decide) (by decide)

/-- Inverting a successful registration: the stripped username and the
password are non-empty, the password is at least 6 characters, the
username was free, and the new user record is appended. -/
theorem register_201_inv (users : List UserRec) (freshId salt now : Nat)
    (uname pw : String)
    (hreg : (register users freshId salt now uname pw).1.status = 201) :
    pyStrip uname ≠ "" ∧ pw ≠ "" ∧ 6 ≤ pw.length ∧
    users.find? (fun u => u.username == pyStrip uname) = none ∧
    (register users freshId salt now uname pw).2 =
      users ++ [⟨freshId, pyStrip uname, generate_password_hash salt pw, now⟩] := by
  by_cases c1 : pyStrip uname = "" ∨ pw = ""
  · simp [register, c1] at hreg
  · by_cases c2 : (pyStrip uname).length < 3 ∨ (pyStrip uname).length > 50
    · simp [register, c1, c2] at hreg
    · by_cases c3 : pw.length < 6
      · simp [register, c1, c2, c3] at hreg
      · cases hfind : users.find? (fun u => u.username == pyStrip uname) with
        | some u0 => simp [register, c1, c2, c3, hfind] at hreg
        | none =>
          push_neg at c1
          refine ⟨c1.1, c1.2, by omega, rfl, ?_⟩
          simp [register, c1, c2, c3, hfind]

/-- The user store after a successful registration of bob. -/
def c8Users : List UserRec := (register [] 1 0 0 "bob" "secret1").2

/-- C8 counterexample: the empty password differs from the registered
one, yet login answers the 400 missing-field response, not 401. -/
theorem C8_counterexample :
    ("" : String) ≠ "secret1"
    ∧ (login "sk" 0 c8Users "bob" "").status = 400
    ∧ (login "sk" 0 c8Users "bob" "").status ≠ 401
    ∧ (login "sk" 0 c8Users "bob" "").cookie = none := by
  decide

/-- C8 (amended): after registering `uname` with password `pw` (which
succeeded, so `pw` has length ≥ 6), logging in with `pw` authenticates —
200 with a session cookie for the new user; logging in with any other
password never authenticates: no cookie is ever issued and the status is
never 200 — a non-empty wrong password gets 401 while the empty one is
rejected earlier with the 400 missing-field response. -/
theorem C8_register_login (users : List UserRec) (freshId salt now nowL : Nat)
    (secret uname pw : String)
    (hreg : (register users freshId salt now uname pw).1.status = 201) :
    ((login secret nowL (register users freshId salt now uname pw).2 uname pw).status = 200
      ∧ (login secret nowL (register users freshId salt now uname pw).2 uname pw).cookie
          = some (jwtEncode secret ⟨freshId, nowL + 86400⟩))
    ∧ (∀ pw', pw' ≠ pw →
        (login secret nowL (register users freshId salt now uname pw).2 uname pw').cookie = none
        ∧ (login secret nowL (register users freshId salt now uname pw).2 uname pw').status ≠ 200
        ∧ (pw' ≠ "" →
            (login secret nowL (register users freshId salt now uname pw).2 uname pw').status = 401)) := by
  obtain ⟨hu, hpw, hlen, hfind, hdb⟩ :=
    register_201_inv users freshId salt now uname pw hreg
  rw [hdb]
  have hfind' :
      List.find? (fun u => u.username == pyStrip uname)
        (users ++ [(⟨freshId, pyStrip uname, generate_password_hash salt pw, now⟩ : UserRec)])
      = some (⟨freshId, pyStrip uname, generate_password_hash salt pw, now⟩ : UserRec) := by
    rw [List.find?_append, hfind]
    simp [List.find?]
  refine ⟨⟨?_, ?_⟩, ?_⟩
  · simp [login, hu, hpw, hfind, hfind', check_password_hash, generate_password_hash]
  · simp [login, hu, hpw, hfind, hfind', check_password_hash, generate_password_hash]
  · intro pw' hne
    have hne' : ¬ (pw = pw') := fun hh => hne hh.symm
    by_cases hz : pw' = ""
    · subst hz
      refine ⟨by simp [login], by simp [login], fun hh => absurd rfl hh⟩
    · refine ⟨?_, ?_, fun _ => ?_⟩ <;>
        simp [login, hu, hz, hfind, hfind', check_password_hash,
          generate_password_hash, hne']

/-- Witness for C8 (amended): bob registers with secret1; the right
password authenticates, a wrong one gets 401. -/
theorem C8_register_login_witness :
    (login "sk" 5 (register [] 1 0 0 "bob" "secret1").2 "bob" "secret1").status = 200
    ∧ (login "sk" 5 (register [] 1 0 0 "bob" "secret1").2 "bob" "wrong").status = 401 := by
  have h := C8_register_login [] 1 0 0 5 "sk" "bob" "secret1" (by decide)
  exact ⟨h.1.1, (h.2 "wrong" (by decide)).2.2 (by decide)⟩

/-- With unique ids, updating the first matching document rewrites
exactly the documents carrying that id. -/
theorem updateFirst_eq_map (nid : Nat) (f : Note → Note) (db : List Note)
    (hnodup : (db.map Note.id).Nodup) :
    updateFirst nid f db = db.map (fun m => if m.id = nid then f m else m) := by
  induction db with
  | nil => rfl
  | cons x xs ih =>
    rw [List.map_cons, List.nodup_cons] at hnodup
    unfold updateFirst
    by_cases hx : x.id = nid
    · rw [if_pos hx, List.map_cons, if_pos hx]
      congr 1
      have hrest : ∀ m ∈ xs, (if m.id = nid then f m else m) = m := by
        intro m hm
        rw [if_neg]
        intro hmn
        exact hnodup.1 (hx ▸ hmn ▸ List.mem_map_of_mem Note.id hm)
      exact ((List.map_congr_left hrest).trans (List.map_id' xs)).symm
    · rw [if_neg hx, List.map_cons, if_neg hx]
      congr 1
      exact ih hnodup.2

/-- The `$set` document of the PUT branch, written fieldwise. -/
theorem putUpdate_eq (b : List (String × JVal)) (now : Nat) (n : Note) :
    putUpdate b now n =
      { n with
        title := if jHasKey b "title" then jget b "title" .jnull else n.title,
        content := if jHasKey b "content" then jget b "content" .jnull else n.content,
        updated_at := now } := by
  unfold putUpdate
  by_cases h1 : jHasKey b "title" <;> by_cases h2 : jHasKey b "content" <;>
    simp [h1, h2]

/-- C9: a successful PUT on an owned note changes exactly that note,
and of its fields only those present in the request body — title and
content, copied verbatim — always refreshing updated_at to now, while
id, owner and created_at, and every other note in the store, are left
unchanged. -/
theorem C9_put_frame (db : List Note) (uid now : Nat) (noteId : String)
    (b : List (String × JVal)) (n : Note) (c : Option Token) (pg pp : Int)
    (hnodup : (db.map Note.id).Nodup)
    (hmem : n ∈ db) (hown : n.user_id = uid)
    (hparse : parseObjectId noteId = some n.id) :
    noteDetailHandler uid noteId ⟨"PUT", c, .retObj b, pg, pp⟩ now db
      = (.resp {status := 200, body := .info "Note updated"},
         db.map (fun m => if m.id = n.id then
           { m with
             title := if jHasKey b "title" then jget b "title" .jnull else m.title,
             content := if jHasKey b "content" then jget b "content" .jnull else m.content,
             updated_at := now }
           else m)) := by
  have hsome : (db.find? (fun m => m.id == n.id && m.user_id == uid)).isSome := by
    rw [List.find?_isSome]
    exact ⟨n, hmem, by simp [hown]⟩
  cases hf : db.find? (fun m => m.id == n.id && m.user_id == uid) with
  | none => rw [hf] at hsome; simp at hsome
  | some n0 =>
    have hmap : db.map (fun m => if m.id = n.id then putUpdate b now m else m)
        = db.map (fun m => if m.id = n.id then
            { m with
              title := if jHasKey b "title" then jget b "title" .jnull else m.title,
              content := if jHasKey b "content" then jget b "content" .jnull else m.content,
              updated_at := now }
            else m) :=
      List.map_congr_left (fun m _ => by
        by_cases h : m.id = n.id
        · simp [h, putUpdate_eq]
        · simp [h])
    simp only [noteDetailHandler, hparse, hf]
    rw [updateFirst_eq_map n.id (putUpdate b now) db hnodup, hmap]
    simp

/-- Witness for C9: a PUT carrying only content (here even a non-string
value, stored verbatim) rewrites content and updated_at and nothing
else. -/
theorem C9_put_frame_witness :
    noteDetailHandler 1 "1" ⟨"PUT", none, .retObj [("content", .jnum 7)], 1, 20⟩ 5
        [⟨1, 1, .jstr "t", .jstr "c", 0, 0⟩]
      = (.resp {status := 200, body := .info "Note updated"},
         [⟨1, 1, .jstr "t", .jnum 7, 0, 5⟩]) := by
  rw [C9_put_frame [⟨1, 1, .jstr "t", .jstr "c", 0, 0⟩] 1 5 "1"
    [("content", .jnum 7)] ⟨1, 1, .jstr "t", .jstr "c", 0, 0⟩ none 1 20
    (by decide) (by decide) rfl (by decide)]
  decide

/-- The first element surviving dropWhile does not satisfy the
predicate. -/
theorem head?_dropWhile_not {α : Type} (p : α → Bool) (l : List α) (a : α)
    (h : (l.dropWhile p).head? = some a) : p a = false := by
  induction l with
  | nil => simp [List.dropWhile] at h
  | cons x xs ih =>
    rw [List.dropWhile_cons] at h
    by_cases hx : p x
    · rw [if_pos hx] at h
      exact ih h
    · rw [if_neg hx] at h
      simp only [List.head?_cons, Option.some.injEq] at h
      rw [← h]
      exact Bool.eq_false_iff.mpr hx

/-- dropWhile keeps the last element, when one survives. -/
theorem getLast?_dropWhile {α : Type} (p : α → Bool) (l : List α) (a : α)
    (h : (l.dropWhile p).getLast? = some a) : l.getLast? = some a := by
  obtain ⟨t, ht⟩ := List.dropWhile_suffix (l := l) p
  rw [← ht, List.getLast?_append_of_ne_nil]
  · exact h
  · intro hnil
    rw [hnil] at h
    simp at h

/-- Python strip leaves no surrounding whitespace. -/
theorem pyStrip_noSurroundingWs (s : String) : noSurroundingWs (pyStrip s) := by
  constructor
  · intro ch h
    have h1 : (((s.data.dropWhile Char.isWhitespace).reverse.dropWhile
        Char.isWhitespace).reverse).head? = some ch := h
    rw [List.head?_reverse] at h1
    have h2 := getLast?_dropWhile Char.isWhitespace _ _ h1
    rw [List.getLast?_reverse] at h2
    exact head?_dropWhile_not Char.isWhitespace _ _ h2
  · intro ch h
    have h1 : (((s.data.dropWhile Char.isWhitespace).reverse.dropWhile
        Char.isWhitespace).reverse).getLast? = some ch := h
    rw [List.getLast?_reverse] at h1
    exact head?_dropWhile_not Char.isWhitespace _ _ h1

/-- C10: the create branch strips title and content before validation
and storage — a whitespace-only content is rejected as empty with the
400, and any note the call adds to the store carries the stripped title
and content, hence no surrounding whitespace. -/
theorem C10_create_strips (db : List Note) (uid freshId now : Nat)
    (b : List (String × JVal)) (c : Option Token) (pg pp : Int)
    (tRaw cRaw : String)
    (ht : jget b "title" (.jstr "") = .jstr tRaw)
    (hc : jget b "content" (.jstr "") = .jstr cRaw)
    (hne : b ≠ []) :
    (pyStrip cRaw = "" →
      notesHandler uid ⟨"POST", c, .retObj b, pg, pp⟩ freshId now db
        = (.resp {status := 400, body := .err "Content is required"}, db))
    ∧ (∀ m ∈ (notesHandler uid ⟨"POST", c, .retObj b, pg, pp⟩ freshId now db).2,
        m ∈ db ∨
          (m.title = .jstr (pyStrip tRaw) ∧ m.content = .jstr (pyStrip cRaw)
            ∧ noSurroundingWs (pyStrip tRaw) ∧ noSurroundingWs (pyStrip cRaw))) := by
  have hbe : b.isEmpty = false := by simpa [List.isEmpty_iff] using hne
  constructor
  · intro hempty
    simp [notesHandler, notesPostTry, hbe, ht, hc, jstripOrRaise, hempty]
  · intro m hm
    by_cases h1 : pyStrip cRaw = ""
    · simp [notesHandler, notesPostTry, hbe, ht, hc, jstripOrRaise, h1] at hm
      exact Or.inl hm
    · by_cases h2 : (pyStrip cRaw).length > 10000
      · simp [notesHandler, notesPostTry, hbe, ht, hc, jstripOrRaise, h1, h2] at hm
        exact Or.inl hm
      · by_cases h3 : (pyStrip tRaw).length > 200
        · simp [notesHandler, notesPostTry, hbe, ht, hc, jstripOrRaise,
            h1, h2, h3] at hm
          exact Or.inl hm
        · simp [notesHandler, notesPostTry, hbe, ht, hc, jstripOrRaise,
            h1, h2, h3] at hm
          rcases hm with hm | hm
          · exact Or.inl hm
          · right
            rw [hm]
            exact ⟨rfl, rfl, pyStrip_noSurroundingWs tRaw, pyStrip_noSurroundingWs cRaw⟩

/-- Witness for C10: a whitespace-only content is rejected as empty. -/
theorem C10_create_strips_witness :
    notesHandler 1 ⟨"POST", none, .retObj [("content", .jstr "   ")], 1, 20⟩ 1 0 []
      = (.resp {status := 400, body := .err "Content is required"}, []) := by
  have h := C10_create_strips [] 1 1 0 [("content", .jstr "   ")] none 1 20
    "" "   " (by decide) (by decide) (by decide)
  exact h.1 (by decide)

end SecureNotes
